import Mathlib

/-!
Verification development for the percolator-sim toolset: a deterministic
program-derived-address (PDA) derivation and ledger-topology inspection
engine (`interact.js`: the `interact-percolator` CLI script and the
`dashboard` web server).

Modelling conventions:
* bytes are `Nat` values (each < 256 where produced by the code);
* 32-byte public keys / program ids are `List Nat` of length 32;
* the derive primitive `PublicKey.findProgramAddressSync` lives in the
  external `@solana/web3.js` library, not in this repository, so it is
  modelled from the spec (bump search over a Curve-Membership Hasher,
  sections 4.1 and 4.2), parameterised by an abstract `Hasher`;
* the concrete Hasher used by the target ledger (SHA-256 digest over
  seeds, then program id, then the `ProgramDerivedAddress` domain
  separator; curve membership = ed25519 point-decoding success) is
  implemented executably below so that concrete topologies can be
  evaluated inside the logic.
-/

set_option maxRecDepth 100000
set_option maxHeartbeats 4000000

/-! ## Byte-level utilities (mirroring Buffer operations in interact.js) -/

/-- UTF-8 encoding of a single code point, as byte values. -/
def utf8EncodeCharNat (n : Nat) : List Nat :=
  if n < 128 then [n]
  else if n < 2048 then [192 + n / 64, 128 + n % 64]
  else if n < 65536 then [224 + n / 4096, 128 + n / 64 % 64, 128 + n % 64]
  else [240 + n / 262144, 128 + n / 4096 % 64, 128 + n / 64 % 64, 128 + n % 64]

/-- Bytes of a string under UTF-8, as `Buffer.from(string)` produces in the
source (`marketSeed = Buffer.from(market)` and every literal seed). -/
def utf8Bytes (s : String) : List Nat :=
  s.data.flatMap (fun c => utf8EncodeCharNat c.toNat)

/-- Little-endian 8-byte encoding of an unsigned 64-bit value, mirroring
`u64LE` in interact.js (`Buffer.writeBigUInt64LE`). -/
def u64LE (n : Nat) : List Nat :=
  [n % 256, n / 256 % 256, n / 65536 % 256, n / 16777216 % 256,
   n / 4294967296 % 256, n / 1099511627776 % 256,
   n / 281474976710656 % 256, n / 72057594037927936 % 256]

/-- Value of a little-endian byte list. -/
def fromLEBytes : List Nat → Nat
  | [] => 0
  | b :: rest => b + 256 * fromLEBytes rest

/-- Big-endian 32-byte encoding of a natural number below 2^256. -/
def toBE32 (n : Nat) : List Nat :=
  (List.range 32).map (fun i => n / 256 ^ (31 - i) % 256)

/-- Big-endian 8-byte encoding (used by the SHA-256 length padding). -/
def be64 (n : Nat) : List Nat :=
  [n / 72057594037927936 % 256, n / 281474976710656 % 256,
   n / 1099511627776 % 256, n / 4294967296 % 256,
   n / 16777216 % 256, n / 65536 % 256, n / 256 % 256, n % 256]

/-! ## Base58 decoding (how the source turns the vanity id strings into keys) -/

def base58Alphabet : List Char :=
  "123456789ABCDEFGHJKLMNPQRSTUVWXYZabcdefghijkmnopqrstuvwxyz".data

def base58ToNat : List Char → Nat → Nat
  | [], acc => acc
  | c :: rest, acc => base58ToNat rest (acc * 58 + base58Alphabet.indexOf c)

/-- The 32 raw bytes of a base58-encoded public key string, as
`new PublicKey(string)` produces in the source. -/
def pubkeyBytes (s : String) : List Nat :=
  toBE32 (base58ToNat s.data 0)

/-! ## SHA-256 (executable, kernel-reducible) -/

def wordMask : Nat := 4294967296

def rotr (n x : Nat) : Nat := ((x >>> n) ||| (x <<< (32 - n))) % wordMask

/-- The 64 SHA-256 round constants, written in decimal: entry i is the
first 32 fractional bits of the cube root of the i-th prime. -/
def shaK : List Nat :=
  [1116352408, 1899447441, 3049323471, 3921009573, 961987163, 1508970993,
   2453635748, 2870763221, 3624381080, 310598401, 607225278, 1426881987,
   1925078388, 2162078206, 2614888103, 3248222580, 3835390401, 4022224774,
   264347078, 604807628, 770255983, 1249150122, 1555081692, 1996064986,
   2554220882, 2821834349, 2952996808, 3210313671, 3336571891, 3584528711,
   113926993, 338241895, 666307205, 773529912, 1294757372, 1396182291,
   1695183700, 1986661051, 2177026350, 2456956037, 2730485921, 2820302411,
   3259730800, 3345764771, 3516065817, 3600352804, 4094571909, 275423344,
   430227734, 506948616, 659060556, 883997877, 958139571, 1322822218,
   1537002063, 1747873779, 1955562222, 2024104815, 2227730452, 2361852424,
   2428436474, 2756734187, 3204031479, 3329325298]

/-- The 8 SHA-256 initial state words, written in decimal: entry i is the
first 32 fractional bits of the square root of the i-th prime. -/
def shaH0 : List Nat :=
  [1779033703, 3144134277, 1013904242, 2773480762,
   1359893119, 2600822924, 528734635, 1541459225]

def smallSigma0 (x : Nat) : Nat := (rotr 7 x) ^^^ (rotr 18 x) ^^^ (x >>> 3)
def smallSigma1 (x : Nat) : Nat := (rotr 17 x) ^^^ (rotr 19 x) ^^^ (x >>> 10)
def bigSigma0 (x : Nat) : Nat := (rotr 2 x) ^^^ (rotr 13 x) ^^^ (rotr 22 x)
def bigSigma1 (x : Nat) : Nat := (rotr 6 x) ^^^ (rotr 11 x) ^^^ (rotr 25 x)

/-- Next word of the SHA-256 message schedule, from the words so far in
most-recent-first order (so w[t-2] is at index 1, w[t-16] at index 15). -/
def nextScheduleWord (w : List Nat) : Nat :=
  let g := fun i => w.getD i 0
  (smallSigma1 (g 1) + g 6 + smallSigma0 (g 14) + g 15) % wordMask

/-- Extend a most-recent-first schedule by the given number of words. -/
def extendScheduleRev (w : List Nat) : Nat → List Nat
  | 0 => w
  | k + 1 => extendScheduleRev (nextScheduleWord w :: w) k

/-- The 64-word message schedule from a 16-word block. -/
def extendSchedule (block : List Nat) : List Nat :=
  (extendScheduleRev block.reverse 48).reverse

/-- One SHA-256 compression round on the 8-word working state. -/
def compressRound (st : List Nat) (k w : Nat) : List Nat :=
  match st with
  | [a, b, c, d, e, f, g, hh] =>
    let s1 := bigSigma1 e
    let ch := (e &&& f) ^^^ ((4294967295 ^^^ e) &&& g)
    let temp1 := (hh + s1 + ch + k + w) % wordMask
    let s0 := bigSigma0 a
    let maj := (a &&& b) ^^^ (b &&& c) ^^^ (c &&& a)
    let temp2 := (s0 + maj) % wordMask
    [(temp1 + temp2) % wordMask, a, b, c, (d + temp1) % wordMask, e, f, g]
  | other => other

def compressBlock (hs : List Nat) (block : List Nat) : List Nat :=
  let w := extendSchedule block
  let s := (shaK.zip w).foldl (fun st kw => compressRound st kw.1 kw.2) hs
  (hs.zip s).map (fun pr => (pr.1 + pr.2) % wordMask)

/-- SHA-256 padding: append 0x80, zero bytes to 56 mod 64, then the 64-bit
big-endian bit length. -/
def padMessage (m : List Nat) : List Nat :=
  let len := m.length
  let zeros := (119 - len % 64) % 64
  m ++ [128] ++ List.replicate zeros 0 ++ be64 (8 * len)

/-- Big-endian 32-bit words from a byte list (length a multiple of 4). -/
def toWords : List Nat → List Nat
  | b0 :: b1 :: b2 :: b3 :: rest =>
      (b0 * 16777216 + b1 * 65536 + b2 * 256 + b3) :: toWords rest
  | _ => []

/-- Split a word list into 16-word blocks (fuel-driven for structural
recursion; fuel at least the list length). -/
def chunkWords : Nat → List Nat → List (List Nat)
  | 0, _ => []
  | _, [] => []
  | fuel + 1, ws => ws.take 16 :: chunkWords fuel (ws.drop 16)

def word32ToBytesBE (w : Nat) : List Nat :=
  [w / 16777216 % 256, w / 65536 % 256, w / 256 % 256, w % 256]

/-- SHA-256 of a byte list, as a 32-byte list. -/
def sha256 (m : List Nat) : List Nat :=
  let padded := padMessage m
  let blocks := chunkWords padded.length (toWords padded)
  (blocks.foldl compressBlock shaH0).flatMap word32ToBytesBE

/-! ## ed25519 point-decoding test (curve membership of a 32-byte digest) -/

/-- The ed25519 base field modulus 2^255 - 19. -/
def ed25519P : Nat := 2 ^ 255 - 19

/-- Fuel-driven modular exponentiation (square and multiply, least
significant bit first, tail recursive); fuel bounds the number of halvings
of the exponent. -/
def powModAux (m : Nat) : Nat → Nat → Nat → Nat → Nat
  | 0, _, _, acc => acc
  | fuel + 1, b, e, acc =>
    if e = 0 then acc
    else
      powModAux m fuel (b * b % m) (e / 2) (if e % 2 = 1 then acc * b % m else acc)

def powMod (m fuel b e : Nat) : Nat := powModAux m fuel b e 1

/-- The ed25519 curve constant d = -121665/121666 computed in the field. -/
def ed25519D : Nat :=
  (ed25519P - 121665) * powMod ed25519P 300 121666 (ed25519P - 2) % ed25519P

/-- Whether 32 bytes decode to a point of the ed25519 curve (RFC 8032 point
decoding: split off the sign bit, require y below the modulus, require
x^2 = (y^2-1)/(d y^2+1) to have a square root, and reject x = 0 with sign
bit set). This is the curve-membership test the derive search consults. -/
def ed25519IsOnCurve (bytes : List Nat) : Bool :=
  if bytes.length ≠ 32 then false
  else
    let last := bytes.getD 31 0
    let signBit := last / 128
    let y := fromLEBytes (bytes.take 31) + last % 128 * 2 ^ 248
    if ed25519P ≤ y then false
    else
      let u := (y * y + ed25519P - 1) % ed25519P
      let v := (ed25519D * y % ed25519P * y + 1) % ed25519P
      let t := u * powMod ed25519P 300 v (ed25519P - 2) % ed25519P
      if t = 0 then signBit = 0
      else powMod ed25519P 300 t ((ed25519P - 1) / 2) = 1

/-! ## Address Derivation Engine

Modelled from the spec: the derive primitive used by the source
(`PublicKey.findProgramAddressSync` of the external web3 library, not part
of this repository) per sections 4.1 and 4.2 of the design: a Hasher
producing a 32-byte digest from a seed sequence and a program id together
with a curve-membership test, and a bump search trying 255 down to 0,
accepting the first off-curve digest and failing with `DerivationExhausted`
when every bump is on-curve. -/

/-- Modelled from the spec: the Curve-Membership Hasher interface of
section 4.1 — a digest over (seeds, programId) and an on-curve
classification of 32-byte digests. The seed-length bound of 4.1 is not
modelled; every seed in the reference schema is within the bound. -/
structure Hasher where
  digest : List (List Nat) → List Nat → List Nat
  isOnCurve : List Nat → Bool

inductive DeriveError where
  | DerivationExhausted
deriving DecidableEq

/-- Modelled from the spec: one candidate derivation — hash the seed
sequence (bump already appended) and accept only an off-curve digest. -/
def createProgramAddress (h : Hasher) (seeds : List (List Nat)) (programId : List Nat) :
    Option (List Nat) :=
  let d := h.digest seeds programId
  if h.isOnCurve d then none else some d

/-- Bump search: `findFrom h seeds pid (n+1)` tries bump `n` first and
descends; `findFrom h seeds pid 0` is exhaustion. -/
def findFrom (h : Hasher) (seeds : List (List Nat)) (programId : List Nat) :
    Nat → Except DeriveError (List Nat × Nat)
  | 0 => Except.error DeriveError.DerivationExhausted
  | n + 1 =>
    match createProgramAddress h (seeds ++ [[n]]) programId with
    | some d => Except.ok (d, n)
    | none => findFrom h seeds programId n

/-- Modelled from the spec: `derive(programId, seeds)` of section 4.2 —
append a trailing bump byte starting at 255 descending to 0 and return the
first off-curve digest together with its bump. -/
def findProgramAddressSync (h : Hasher) (seeds : List (List Nat)) (programId : List Nat) :
    Except DeriveError (List Nat × Nat) :=
  findFrom h seeds programId 256

/-- The domain-separation suffix of the PDA hash of the target ledger. -/
def pdaMarker : List Nat := utf8Bytes "ProgramDerivedAddress"

/-- Modelled from the spec: the concrete Curve-Membership Hasher of the
target ledger — SHA-256 over the concatenated seeds, then the program id,
then the domain separator, with ed25519 point decoding as the
curve-membership test. -/
def realHasher : Hasher :=
  ⟨fun seeds pid => sha256 (seeds.flatten ++ pid ++ pdaMarker), ed25519IsOnCurve⟩

/-! ## Topology: the seven-node reference schema (deriveAllPDAs) -/

/-- The seven derived addresses, mirroring the object returned by
`deriveAllPDAs` in dashboard.js (the interact-percolator script derives the
same seven addresses with identical seeds inline). Addresses are kept as
raw 32-byte lists; the source renders them in base58 for display only. -/
structure Topology where
  vaultPda : List Nat
  escrowPda : List Nat
  capPda : List Nat
  portfolioPda : List Nat
  registryPda : List Nat
  slabStatePda : List Nat
  authorityPda : List Nat
deriving DecidableEq

/-- Embedding of `deriveAllPDAs({routerPk, slabPk, userPk, mintPk, market})`
(dashboard.js lines 334-380; the same derivations appear inline in
interact-percolator lines 155-197): vault, slab-state, escrow, cap
(with the hardcoded nonce 1), portfolio, registry under the router and
slab-state, authority under the slab. -/
def deriveAllPDAs (h : Hasher) (routerPk slabPk userPk mintPk : List Nat)
    (market : String) : Except DeriveError Topology :=
  match findProgramAddressSync h [utf8Bytes "vault", mintPk] routerPk with
  | Except.error e => Except.error e
  | Except.ok (vaultPda, _) =>
    let marketSeed := utf8Bytes market
    match findProgramAddressSync h [utf8Bytes "slab", marketSeed] slabPk with
    | Except.error e => Except.error e
    | Except.ok (slabStatePda, _) =>
      match findProgramAddressSync h
          [utf8Bytes "escrow", userPk, slabStatePda, mintPk] routerPk with
      | Except.error e => Except.error e
      | Except.ok (escrowPda, _) =>
        let nonceU64 := u64LE 1
        match findProgramAddressSync h
            [utf8Bytes "cap", userPk, slabStatePda, mintPk, nonceU64] routerPk with
        | Except.error e => Except.error e
        | Except.ok (capPda, _) =>
          match findProgramAddressSync h [utf8Bytes "portfolio", userPk] routerPk with
          | Except.error e => Except.error e
          | Except.ok (portfolioPda, _) =>
            match findProgramAddressSync h [utf8Bytes "registry"] routerPk with
            | Except.error e => Except.error e
            | Except.ok (registryPda, _) =>
              match findProgramAddressSync h [utf8Bytes "authority", slabStatePda] slabPk with
              | Except.error e => Except.error e
              | Except.ok (authorityPda, _) =>
                Except.ok ⟨vaultPda, escrowPda, capPda, portfolioPda, registryPda,
                           slabStatePda, authorityPda⟩

/-- The seven addresses of a topology as a list (order as displayed by the
source: vault, escrow, cap, portfolio, registry, slab state, authority). -/
def pdaList (t : Topology) : List (List Nat) :=
  [t.vaultPda, t.escrowPda, t.capPda, t.portfolioPda, t.registryPda,
   t.slabStatePda, t.authorityPda]

/-- Default router program id from the source (base58 vanity id). -/
def ROUTER_ID : List Nat := pubkeyBytes "RoutR1VdCpHqj89WEMJhb6TkGT9cPfr1rVjhM3e2YQr"

/-- Default slab program id from the source (base58 vanity id). -/
def SLAB_ID : List Nat := pubkeyBytes "SLabZ6PsDLh2X6HzEoqxFDMqCVcJXDKCNEYuPzUvGPk"

/-- The concrete topology produced for user = mint = bytes 0..31 and
market BTC-PERP under the default router and slab ids (used as the
explicit value in the completeness proof). -/
def refTopology : Topology :=
  ⟨[251, 171, 23, 72, 122, 32, 251, 131, 14, 60, 37, 212, 135, 97, 156, 64, 12, 6, 239, 112, 199, 129, 130, 129, 94, 16, 98, 104, 66, 219, 143, 169],
   [15, 66, 37, 238, 35, 0, 229, 99, 138, 91, 56, 57, 123, 183, 138, 237, 94, 187, 198, 39, 132, 209, 218, 210, 165, 136, 188, 33, 119, 142, 226, 219],
   [90, 116, 49, 76, 241, 62, 13, 179, 95, 62, 251, 172, 9, 18, 21, 38, 53, 78, 84, 222, 65, 144, 52, 111, 166, 108, 17, 255, 115, 54, 67, 9],
   [198, 108, 10, 48, 129, 153, 165, 57, 83, 87, 145, 227, 77, 217, 21, 124, 54, 255, 210, 83, 99, 91, 188, 143, 213, 61, 195, 83, 227, 28, 173, 3],
   [109, 115, 177, 38, 182, 132, 0, 61, 3, 134, 239, 157, 61, 102, 210, 174, 218, 15, 70, 62, 237, 5, 121, 105, 36, 233, 85, 90, 172, 64, 216, 206],
   [84, 136, 190, 139, 72, 160, 136, 133, 115, 185, 22, 101, 3, 212, 34, 93, 248, 217, 120, 226, 171, 65, 8, 122, 39, 101, 172, 82, 16, 107, 163, 41],
   [103, 192, 234, 55, 26, 151, 114, 175, 245, 71, 87, 224, 80, 28, 123, 145, 11, 188, 65, 233, 144, 105, 247, 89, 231, 108, 5, 72, 205, 41, 71, 101]⟩

/-- Modelled from the spec: the reference seven-node schema of section 4.3
with the words of claim C3 — vault, registry, portfolio under the router,
slab-state and authority under the slab, escrow and cap under the router,
dependent nodes receiving the derived slab-state address, and the nonce a
caller-supplied root encoded as an 8-byte little-endian u64. Node order
matches the evaluation order of the source so that dependent nodes follow
slab-state. -/
def specResolve (h : Hasher) (routerPk slabPk userPk mintPk : List Nat)
    (market : String) (nonce : Nat) : Except DeriveError Topology :=
  match findProgramAddressSync h [utf8Bytes "vault", mintPk] routerPk with
  | Except.error e => Except.error e
  | Except.ok (vaultPda, _) =>
    match findProgramAddressSync h [utf8Bytes "slab", utf8Bytes market] slabPk with
    | Except.error e => Except.error e
    | Except.ok (slabStatePda, _) =>
      match findProgramAddressSync h
          [utf8Bytes "escrow", userPk, slabStatePda, mintPk] routerPk with
      | Except.error e => Except.error e
      | Except.ok (escrowPda, _) =>
        match findProgramAddressSync h
            [utf8Bytes "cap", userPk, slabStatePda, mintPk, u64LE nonce] routerPk with
        | Except.error e => Except.error e
        | Except.ok (capPda, _) =>
          match findProgramAddressSync h [utf8Bytes "portfolio", userPk] routerPk with
          | Except.error e => Except.error e
          | Except.ok (portfolioPda, _) =>
            match findProgramAddressSync h [utf8Bytes "registry"] routerPk with
            | Except.error e => Except.error e
            | Except.ok (registryPda, _) =>
              match findProgramAddressSync h [utf8Bytes "authority", slabStatePda] slabPk with
              | Except.error e => Except.error e
              | Except.ok (authorityPda, _) =>
                Except.ok ⟨vaultPda, escrowPda, capPda, portfolioPda, registryPda,
                           slabStatePda, authorityPda⟩

/-- Degenerate hasher with constant digest [0], always off curve; used to
instantiate universally quantified theorems at concrete inputs. -/
def constHasher : Hasher := ⟨fun _ _ => [0], fun _ => false⟩

/-- Hasher whose single-byte digest is the sum of all input bytes, always
off curve; the digest is sensitive to seed content. -/
def sumHasher : Hasher :=
  ⟨fun seeds pid =>
     [seeds.foldl (fun a s => a + s.foldl (fun x y => x + y) 0) 0 +
        pid.foldl (fun x y => x + y) 0],
   fun _ => false⟩

/-! ### Properties of the bump search -/

theorem findFrom_ok (h : Hasher) (seeds : List (List Nat)) (pid : List Nat) :
    ∀ n a b, findFrom h seeds pid n = Except.ok (a, b) →
      b < n ∧ a = h.digest (seeds ++ [[b]]) pid ∧
      h.isOnCurve a = false ∧
      ∀ c, b < c → c < n → h.isOnCurve (h.digest (seeds ++ [[c]]) pid) = true := by
  intro n
  induction n with
  | zero => intro a b hab; simp [findFrom] at hab
  | succ n ih =>
    intro a b hab
    by_cases hc : h.isOnCurve (h.digest (seeds ++ [[n]]) pid) = true
    · simp [findFrom, createProgramAddress, hc] at hab
      obtain ⟨hbn, ha, hoff, hall⟩ := ih a b hab
      refine ⟨Nat.lt_succ_of_lt hbn, ha, hoff, ?_⟩
      intro c hbc hcn
      rcases Nat.lt_succ_iff_lt_or_eq.mp hcn with hlt | heq
      · exact hall c hbc hlt
      · rw [heq]; exact hc
    · rw [Bool.not_eq_true] at hc
      simp [findFrom, createProgramAddress, hc] at hab
      obtain ⟨ha, hb⟩ := hab
      subst hb
      refine ⟨Nat.lt_succ_self n, ha.symm, ?_, ?_⟩
      · rw [ha] at hc; exact hc
      · intro c hbc hcn
        exact absurd hcn (Nat.not_lt.mpr hbc)

theorem findFrom_error (h : Hasher) (seeds : List (List Nat)) (pid : List Nat) :
    ∀ n, findFrom h seeds pid n = Except.error DeriveError.DerivationExhausted ↔
      ∀ b, b < n → h.isOnCurve (h.digest (seeds ++ [[b]]) pid) = true := by
  intro n
  induction n with
  | zero => simp [findFrom]
  | succ n ih =>
    by_cases hc : h.isOnCurve (h.digest (seeds ++ [[n]]) pid) = true
    · rw [show findFrom h seeds pid (n + 1) = findFrom h seeds pid n by
        simp [findFrom, createProgramAddress, hc]]
      rw [ih]
      constructor
      · intro hall b hb
        rcases Nat.lt_succ_iff_lt_or_eq.mp hb with hlt | heq
        · exact hall b hlt
        · rw [heq]; exact hc
      · intro hall b hb
        exact hall b (Nat.lt_succ_of_lt hb)
    · rw [Bool.not_eq_true] at hc
      constructor
      · intro hfalse
        simp [findFrom, createProgramAddress, hc] at hfalse
      · intro hall
        have := hall n (Nat.lt_succ_self n)
        rw [this] at hc
        simp at hc

/-! ## Ledger probe: account info, presence classification, fetchMeta -/

/-- Account state as returned by the transport (`getAccountInfo`): absent
accounts are `none`; `data` is `none` when the transport omits the field
(the source guards with `ai.data?.length ?? 0`). -/
structure AccountInfo where
  lamports : Nat
  executable : Bool
  owner : List Nat
  data : Option (List Nat)
deriving DecidableEq

/-- Embedding of `getPresence` (interact-percolator lines 98-102): classify
the latest observation of an account into one of three strings. -/
def getPresence (info : Option AccountInfo) : String :=
  match info with
  | none => "not found"
  | some i => if i.executable then "executable program" else "non-executable account"

/-- Result shape of `fetchMeta` (interact-percolator lines 201-211): a
missing account yields `exists: false` with no further fields; a present
account carries lamports, executable flag, owner and data length. -/
structure FetchedMeta where
  exists_ : Bool
  lamports : Option Nat
  executable : Option Bool
  owner : Option (List Nat)
  dataLen : Option Nat
deriving DecidableEq

/-- Embedding of `fetchMeta` (interact-percolator lines 201-211). It is a
total function of the transport reply: a reply of `null` (account absent)
produces a normal `exists: false` result, not an error. -/
def fetchMeta (ai : Option AccountInfo) : FetchedMeta :=
  match ai with
  | none => ⟨false, none, none, none, none⟩
  | some a => ⟨true, some a.lamports, some a.executable, some a.owner,
               some ((a.data.map List.length).getD 0)⟩

/-! ## Dry-run simulator: gating and the no-op transaction -/

/-- Observable actions of the SIMULATE block (interact-percolator lines
242-270): either a simulate transport call against a program id or a
recorded skip with its reason string. -/
inductive SimAction where
  | simulateCall (programId : List Nat)
  | skip (programId : List Nat) (reason : String)
deriving DecidableEq

/-- One branch of the SIMULATE block for one target program: simulate when
the recorded presence is `executable program`, otherwise record a skip. -/
def dryRunStep (presence : String) (programId : List Nat) : List SimAction :=
  if presence = "executable program" then [SimAction.simulateCall programId]
  else [SimAction.skip programId "account not found or not executable"]

/-- Embedding of the whole SIMULATE block (interact-percolator lines
242-270): gated on the SIMULATE flag, which handles the router first, the
slab second, each against its previously recorded presence string. -/
def simulateSection (simulateFlag : Bool) (routerPresence slabPresence : String)
    (routerId slabId : List Nat) : List SimAction :=
  if simulateFlag then dryRunStep routerPresence routerId ++ dryRunStep slabPresence slabId
  else []

structure AccountMeta where
  pubkey : List Nat
  isSigner : Bool
  isWritable : Bool
deriving DecidableEq

structure TransactionInstruction where
  keys : List AccountMeta
  programId : List Nat
  data : List Nat
deriving DecidableEq

/-- Transaction envelope as assembled by `simulateNoop`: instruction list,
fee payer, recency token (recent blockhash), and the signing identities. -/
structure Transaction where
  instructions : List TransactionInstruction
  feePayer : Option (List Nat)
  recentBlockhash : Option (List Nat)
  signers : List (List Nat)
deriving DecidableEq

/-- Transport operations a run may issue. -/
inductive RpcCall where
  | getLatestBlockhash
  | simulateTransaction (tx : Transaction)
  | sendTransaction (tx : Transaction)
deriving DecidableEq

/-- Embedding of `simulateNoop` (interact-percolator lines 104-116): build
the single no-op instruction (empty data, the payer as sole signing
non-writable account) addressed at the program, set the fee payer, attach
the freshly fetched blockhash, sign with the payer, and submit via the
simulate endpoint. Returns the assembled transaction and the ordered
transport calls issued. -/
def simulateNoop (payerPk programId latestBlockhash : List Nat) :
    Transaction × List RpcCall :=
  let ix : TransactionInstruction := ⟨[⟨payerPk, true, false⟩], programId, []⟩
  let tx : Transaction := ⟨[ix], some payerPk, some latestBlockhash, [payerPk]⟩
  (tx, [RpcCall.getLatestBlockhash, RpcCall.simulateTransaction tx])

/-! ## Dashboard metas loop (batch probe) -/

/-- One row of the dashboard account-metadata table (/api/status, lines
587-594): null fields when the account is absent. -/
structure MetaRow where
  label : String
  pubkey : List Nat
  owner : Option (List Nat)
  exec : Option Bool
  dataLen : Option Nat
  lamports : Option Nat
deriving DecidableEq

def mkMetaRow (label : String) (pk : List Nat) (ai : Option AccountInfo) : MetaRow :=
  match ai with
  | none => ⟨label, pk, none, none, none, none⟩
  | some a => ⟨label, pk, some a.owner, some a.executable,
               some ((a.data.map List.length).getD 0), some a.lamports⟩

/-- Embedding of the metas loop of /api/status (dashboard.js lines
584-595) together with the surrounding route-level try/catch (lines
547-608): the targets are probed strictly in sequence with sequential
awaits and no per-address error handling, so a transport failure at any
address propagates out of the loop (surfacing as the single 500 error
response of the route handler) instead of being recorded per address. -/
def runMetas (fetch : List Nat → Except String (Option AccountInfo)) :
    List (String × List Nat) → Except String (List MetaRow)
  | [] => Except.ok []
  | (label, pk) :: rest =>
    match fetch pk with
    | Except.error e => Except.error e
    | Except.ok ai =>
      match runMetas fetch rest with
      | Except.error e => Except.error e
      | Except.ok rows => Except.ok (mkMetaRow label pk ai :: rows)

/-- A transport that times out on address [2] and reports every other
account as absent. -/
def failingFetch : List Nat → Except String (Option AccountInfo) :=
  fun pk => if pk = [2] then Except.error "timeout" else Except.ok none

/-- Three probe targets of which exactly the middle one fails. -/
def threeTargets : List (String × List Nat) := [("A", [1]), ("B", [2]), ("C", [3])]

/-! ## USER/MINT root defaults (interact-percolator lines 122-126) -/

/-- Embedding of the USER/MINT default chain: USER is the --user flag, else
the USER environment variable, else the payer public key; MINT is the
--mint flag, else the MINT environment variable, else USER. Base58 parsing
by the PublicKey constructor is modelled as the identity on key bytes. -/
def resolveUserMint (optsUser envUser optsMint envMint : Option (List Nat))
    (payerPk : List Nat) : List Nat × List Nat :=
  let user := match optsUser with
    | some u => u
    | none => match envUser with
      | some u => u
      | none => payerPk
  let mint := match optsMint with
    | some m => m
    | none => match envMint with
      | some m => m
      | none => user
  (user, mint)

/-! ## Destructuring a successful topology derivation -/

theorem deriveAllPDAs_ok (h : Hasher) (r s u m : List Nat) (mkt : String) (t : Topology)
    (ht : deriveAllPDAs h r s u m mkt = Except.ok t) :
    (∃ b, findProgramAddressSync h [utf8Bytes "vault", m] r = Except.ok (t.vaultPda, b)) ∧
    (∃ b, findProgramAddressSync h [utf8Bytes "slab", utf8Bytes mkt] s =
       Except.ok (t.slabStatePda, b)) ∧
    (∃ b, findProgramAddressSync h [utf8Bytes "escrow", u, t.slabStatePda, m] r =
       Except.ok (t.escrowPda, b)) ∧
    (∃ b, findProgramAddressSync h [utf8Bytes "cap", u, t.slabStatePda, m, u64LE 1] r =
       Except.ok (t.capPda, b)) ∧
    (∃ b, findProgramAddressSync h [utf8Bytes "portfolio", u] r = Except.ok (t.portfolioPda, b)) ∧
    (∃ b, findProgramAddressSync h [utf8Bytes "registry"] r = Except.ok (t.registryPda, b)) ∧
    (∃ b, findProgramAddressSync h [utf8Bytes "authority", t.slabStatePda] s =
       Except.ok (t.authorityPda, b)) := by
  simp only [deriveAllPDAs] at ht
  split at ht
  · exact Except.noConfusion ht
  rename_i v1 b1 h1
  split at ht
  · exact Except.noConfusion ht
  rename_i v2 b2 h2
  split at ht
  · exact Except.noConfusion ht
  rename_i v3 b3 h3
  split at ht
  · exact Except.noConfusion ht
  rename_i v4 b4 h4
  split at ht
  · exact Except.noConfusion ht
  rename_i v5 b5 h5
  split at ht
  · exact Except.noConfusion ht
  rename_i v6 b6 h6
  split at ht
  · exact Except.noConfusion ht
  rename_i v7 b7 h7
  simp only [Except.ok.injEq] at ht
  subst ht
  exact ⟨⟨b1, h1⟩, ⟨b2, h2⟩, ⟨b3, h3⟩, ⟨b4, h4⟩, ⟨b5, h5⟩, ⟨b6, h6⟩, ⟨b7, h7⟩⟩

/-! ## Concrete helper values for witnesses -/

/-- A concrete 32-byte user key (bytes 0..31), standing for the loaded
identity; the dashboard always sets the mint root equal to the user root. -/
def demoUser : List Nat := List.range 32

/-- The topology produced by `constHasher` (every derivation immediately
accepts bump 255 with digest [0]). -/
def constTopology : Topology := ⟨[0], [0], [0], [0], [0], [0], [0]⟩

/-! ## Claims -/

/-- C1: Derivation is deterministic: for every (programId, seeds) input,
two invocations of the derive operation, and two invocations of the whole
topology derivation over the same roots and program ids, produce an
identical (address, bump) pair; the embedded operations are pure functions
of their arguments, so equal inputs give equal outputs and no hidden state
can influence the result. -/
theorem C1_derive_deterministic (h : Hasher) (pid pid2 : List Nat)
    (seeds seeds2 : List (List Nat)) (router slab user mint : List Nat) (market : String)
    (hpid : pid = pid2) (hseeds : seeds = seeds2) :
    findProgramAddressSync h seeds pid = findProgramAddressSync h seeds2 pid2 ∧
    deriveAllPDAs h router slab user mint market =
      deriveAllPDAs h router slab user mint market := by
  subst hpid; subst hseeds; exact ⟨rfl, rfl⟩

theorem C1_derive_deterministic_witness :
    findProgramAddressSync constHasher [[1]] [0] = findProgramAddressSync constHasher [[1]] [0] ∧
    deriveAllPDAs constHasher [0] [1] [2] [3] "BTC-PERP" =
      deriveAllPDAs constHasher [0] [1] [2] [3] "BTC-PERP" :=
  C1_derive_deterministic constHasher [0] [0] [[1]] [[1]] [0] [1] [2] [3] "BTC-PERP" rfl rfl

/-- C2: For every (programId, seeds), the derive operation appends a single
trailing bump byte, trying 255 down to 0: a success returns the first bump
whose digest is off-curve together with that digest as the address (every
higher bump hashed on-curve), and the search fails with DerivationExhausted
exactly when every bump in [0,255] hashes on-curve — it never falls back to
an on-curve address. -/
theorem C2_bump_search_correct (h : Hasher) (seeds : List (List Nat)) (pid : List Nat) :
    (∀ a b, findProgramAddressSync h seeds pid = Except.ok (a, b) →
        b ≤ 255 ∧ a = h.digest (seeds ++ [[b]]) pid ∧ h.isOnCurve a = false ∧
        ∀ c, b < c → c ≤ 255 → h.isOnCurve (h.digest (seeds ++ [[c]]) pid) = true) ∧
    (findProgramAddressSync h seeds pid = Except.error DeriveError.DerivationExhausted ↔
        ∀ b, b ≤ 255 → h.isOnCurve (h.digest (seeds ++ [[b]]) pid) = true) := by
  constructor
  · intro a b hab
    obtain ⟨hb, ha, hoff, hall⟩ := findFrom_ok h seeds pid 256 a b hab
    exact ⟨Nat.lt_succ_iff.mp hb, ha, hoff,
           fun c hbc hc => hall c hbc (Nat.lt_succ_iff.mpr hc)⟩
  · rw [findProgramAddressSync, findFrom_error h seeds pid 256]
    exact ⟨fun hall b hb => hall b (Nat.lt_succ_iff.mpr hb),
           fun hall b hb => hall b (Nat.lt_succ_iff.mp hb)⟩

theorem C2_bump_search_correct_witness :
    255 ≤ 255 ∧ [0] = constHasher.digest ([] ++ [[255]]) [] ∧
    constHasher.isOnCurve [0] = false ∧
    ∀ c, 255 < c → c ≤ 255 → constHasher.isOnCurve (constHasher.digest ([] ++ [[c]]) []) = true :=
  (C2_bump_search_correct constHasher [] []).1 [0] 255 rfl

/-- C3 counterexample: the claim quantifies over an arbitrary nonce root,
but the code fixes the cap nonce to 1 (`u64LE(1n)`, labelled an example
nonce); with nonce 2 and a content-sensitive hasher the code-evaluated cap
address differs from the cap address of the claimed schema. -/
theorem C3_nonce_counterexample :
    (deriveAllPDAs sumHasher [0] [1] [2] [3] "X").toOption.map Topology.capPda ≠
      (specResolve sumHasher [0] [1] [2] [3] "X" 2).toOption.map Topology.capPda := by
  decide

/-- C3 (amended): for every set of roots {user, mint, market} and program
ids {router, slab}, topology resolution evaluates exactly the reference
seven-node schema with the claimed seeds, seed order, and owning programs,
with dependent nodes evaluated after the slab-state node — but with the
nonce root fixed to 1 (8-byte little-endian) rather than caller-supplied. -/
theorem C3_schema_evaluation (h : Hasher) (router slab user mint : List Nat) (market : String) :
    deriveAllPDAs h router slab user mint market =
      specResolve h router slab user mint market 1 := rfl

/-- C4: resolving the reference schema with user = mint = demoUser,
market BTC-PERP, nonce 1 under the default program ids and the concrete
ledger Hasher yields exactly 7 pairwise-distinct addresses, and (for every
hasher and roots) the three dependency references — escrow, cap,
authority — substitute exactly the slab-state address recorded as the
slab-state entry of the produced topology. -/
theorem C4_topology_completeness :
    (∃ t, deriveAllPDAs realHasher ROUTER_ID SLAB_ID demoUser demoUser "BTC-PERP" =
        Except.ok t ∧ (pdaList t).Nodup ∧ (pdaList t).length = 7) ∧
    (∀ h r s u m mkt t, deriveAllPDAs h r s u m mkt = Except.ok t →
       (∃ b, findProgramAddressSync h [utf8Bytes "escrow", u, t.slabStatePda, m] r =
          Except.ok (t.escrowPda, b)) ∧
       (∃ b, findProgramAddressSync h [utf8Bytes "cap", u, t.slabStatePda, m, u64LE 1] r =
          Except.ok (t.capPda, b)) ∧
       (∃ b, findProgramAddressSync h [utf8Bytes "slab", utf8Bytes mkt] s =
          Except.ok (t.slabStatePda, b)) ∧
       (∃ b, findProgramAddressSync h [utf8Bytes "authority", t.slabStatePda] s =
          Except.ok (t.authorityPda, b))) := by
  constructor
  · exact ⟨refTopology, rfl, by decide, rfl⟩
  · intro h r s u m mkt t ht
    obtain ⟨_, hslab, hescrow, hcap, _, _, hauth⟩ := deriveAllPDAs_ok h r s u m mkt t ht
    exact ⟨hescrow, hcap, hslab, hauth⟩

theorem C4_topology_completeness_witness :
    (∃ b, findProgramAddressSync constHasher
        [utf8Bytes "escrow", [2], constTopology.slabStatePda, [3]] [0] =
        Except.ok (constTopology.escrowPda, b)) ∧
    (∃ b, findProgramAddressSync constHasher
        [utf8Bytes "cap", [2], constTopology.slabStatePda, [3], u64LE 1] [0] =
        Except.ok (constTopology.capPda, b)) ∧
    (∃ b, findProgramAddressSync constHasher [utf8Bytes "slab", utf8Bytes "X"] [1] =
        Except.ok (constTopology.slabStatePda, b)) ∧
    (∃ b, findProgramAddressSync constHasher
        [utf8Bytes "authority", constTopology.slabStatePda] [1] =
        Except.ok (constTopology.authorityPda, b)) :=
  C4_topology_completeness.2 constHasher [0] [1] [2] [3] "X" constTopology rfl

/-- C5: when the most recent observation of a program classifies it as
absent or not executable, the SIMULATE block refuses that target —
recording the skip reason instead of issuing any simulate transport
call — and a simulate call is only ever issued for a target whose latest
observation classifies it as an executable program. -/
theorem C5_dry_run_gating (flag : Bool) (infoR infoS : Option AccountInfo)
    (routerId slabId : List Nat) (hne : routerId ≠ slabId)
    (habs : infoR = none ∨ ∃ a, infoR = some a ∧ a.executable = false) :
    SimAction.simulateCall routerId ∉
      simulateSection flag (getPresence infoR) (getPresence infoS) routerId slabId ∧
    (flag = true →
      SimAction.skip routerId "account not found or not executable" ∈
        simulateSection flag (getPresence infoR) (getPresence infoS) routerId slabId) ∧
    (∀ pid info2, SimAction.simulateCall pid ∈ dryRunStep (getPresence info2) pid →
      ∃ a, info2 = some a ∧ a.executable = true) := by
  have hpres : getPresence infoR ≠ "executable program" := by
    rcases habs with hnone | ⟨a, hsome, hexec⟩
    · rw [hnone]; simp [getPresence]
    · rw [hsome]; simp [getPresence, hexec]
  have hstep : dryRunStep (getPresence infoR) routerId =
      [SimAction.skip routerId "account not found or not executable"] := by
    simp [dryRunStep, hpres]
  refine ⟨?_, ?_, ?_⟩
  · cases flag with
    | false => simp [simulateSection]
    | true =>
      simp only [simulateSection, if_true, hstep]
      intro hmem
      rcases List.mem_append.mp hmem with hl | hr
      · simp at hl
      · unfold dryRunStep at hr
        by_cases hs2 : getPresence infoS = "executable program"
        · rw [if_pos hs2] at hr
          simp at hr
          exact hne hr
        · rw [if_neg hs2] at hr
          simp at hr
  · intro hflag
    subst hflag
    simp only [simulateSection, if_true, hstep]
    exact List.mem_append_left _ (List.mem_singleton.mpr rfl)
  · intro pid info2 hmem
    by_cases h2 : getPresence info2 = "executable program"
    · cases info2 with
      | none => simp [getPresence] at h2
      | some a =>
        cases hexec : a.executable with
        | true => exact ⟨a, rfl, hexec⟩
        | false => simp [getPresence, hexec] at h2
    · unfold dryRunStep at hmem
      rw [if_neg h2] at hmem
      simp at hmem

theorem C5_dry_run_gating_witness :
    SimAction.simulateCall [0] ∉
      simulateSection true (getPresence none)
        (getPresence (some ⟨1, true, [9], none⟩)) [0] [1] ∧
    (true = true →
      SimAction.skip [0] "account not found or not executable" ∈
        simulateSection true (getPresence none)
          (getPresence (some ⟨1, true, [9], none⟩)) [0] [1]) ∧
    (∀ pid info2, SimAction.simulateCall pid ∈ dryRunStep (getPresence info2) pid →
      ∃ a, info2 = some a ∧ a.executable = true) :=
  C5_dry_run_gating true none (some ⟨1, true, [9], none⟩) [0] [1]
    (by decide) (Or.inl rfl)

/-- C6 counterexample: with three probed addresses of which exactly the
middle one has a failing transport read, the batch loop yields the bare transport
error — the report carries no observations at all, so the other two
observations are not present and the single failure aborted the whole
batch. -/
theorem C6_batch_abort_counterexample :
    runMetas failingFetch threeTargets = Except.error "timeout" ∧
    (runMetas failingFetch threeTargets).toOption = none := ⟨rfl, rfl⟩

/-- C6 (amended): probing a batch does not isolate per-address transport
failures: the loop issues strictly sequential reads with no per-address
error handling, so if the read for any targeted address fails, the whole
batch aborts with that transport failure (the dashboard route surfaces a
single 500 error and discards all observations; the CLI run dies fatally)
instead of reporting the other N-1 observations. -/
theorem C6_failure_aborts_batch (fetch : List Nat → Except String (Option AccountInfo))
    (targets : List (String × List Nat)) (label : String) (pk : List Nat) (cause : String)
    (hmem : (label, pk) ∈ targets) (hfail : fetch pk = Except.error cause) :
    ∃ c, runMetas fetch targets = Except.error c := by
  induction targets with
  | nil => cases hmem
  | cons hd tl ih =>
    obtain ⟨l, p⟩ := hd
    rcases List.mem_cons.mp hmem with heq | htl
    · obtain ⟨hl, hp⟩ := Prod.mk.injEq .. ▸ heq
      subst hl; subst hp
      exact ⟨cause, by simp [runMetas, hfail]⟩
    · obtain ⟨c, hc⟩ := ih htl
      cases hf : fetch p with
      | error e => exact ⟨e, by simp [runMetas, hf]⟩
      | ok ai => exact ⟨c, by simp [runMetas, hf, hc]⟩

theorem C6_failure_aborts_batch_witness :
    ∃ c, runMetas failingFetch threeTargets = Except.error c :=
  C6_failure_aborts_batch failingFetch threeTargets "B" [2] "timeout" (by decide) rfl

/-- C7: probing an address the transport reports as absent yields a normal
observation with exists = false and no further fields — fetchMeta is a
total function, so this is a result, not an error — and probing an
existing account populates the observation with its balance, executable
flag, owner and data length. -/
theorem C7_fetchMeta_classification (ai : Option AccountInfo) :
    (ai = none → fetchMeta ai = ⟨false, none, none, none, none⟩) ∧
    (∀ a, ai = some a → fetchMeta ai =
      ⟨true, some a.lamports, some a.executable, some a.owner,
       some ((a.data.map List.length).getD 0)⟩) := by
  constructor
  · intro hn; subst hn; rfl
  · intro a hs; subst hs; rfl

theorem C7_fetchMeta_classification_witness :
    fetchMeta none = ⟨false, none, none, none, none⟩ ∧
    fetchMeta (some ⟨7, true, [4], some [1, 2, 3]⟩) =
      ⟨true, some 7, some true, some [4], some 3⟩ :=
  ⟨(C7_fetchMeta_classification none).1 rfl,
   (C7_fetchMeta_classification (some ⟨7, true, [4], some [1, 2, 3]⟩)).2 _ rfl⟩

/-- C8: the dry-run simulator builds an instruction with an empty data
payload and exactly one account — the fee payer, marked signer and
non-writable — addressed at the program id, sets the fee payer, attaches
the freshly fetched recency token, signs with the supplied identity, and
its transport trace is exactly the blockhash fetch followed by the
simulate call: it never submits the transaction for inclusion or commit. -/
theorem C8_simulateNoop_structure (payerPk programId blockhash : List Nat) :
    (simulateNoop payerPk programId blockhash).1 =
      ⟨[⟨[⟨payerPk, true, false⟩], programId, []⟩],
       some payerPk, some blockhash, [payerPk]⟩ ∧
    (simulateNoop payerPk programId blockhash).2 =
      [RpcCall.getLatestBlockhash,
       RpcCall.simulateTransaction (simulateNoop payerPk programId blockhash).1] :=
  ⟨rfl, rfl⟩

/-- C9 counterexample: with the user root supplied as [1], the mint root
absent from flags and environment, and the loaded identity [0], the
resolved mint is [1] — the supplied user — and not the loaded identity,
refuting the claim that an absent mint root always defaults to the loaded
identity. -/
theorem C9_mint_default_counterexample :
    (resolveUserMint (some [1]) none none none [0]).2 = [1] ∧
    (resolveUserMint (some [1]) none none none [0]).2 ≠ [0] := by
  exact ⟨rfl, by decide⟩

/-- C9 (amended): when the user root is absent from configuration it
defaults to the public key of the loaded identity; when the mint root is absent
it defaults to the resolved user root — hence to the loaded identity
exactly when the user root is also absent, as when both are absent both
equal the loaded identity. -/
theorem C9_user_mint_defaults (optsUser envUser optsMint envMint : Option (List Nat))
    (payerPk : List Nat) :
    (optsUser = none → envUser = none →
      (resolveUserMint optsUser envUser optsMint envMint payerPk).1 = payerPk) ∧
    (optsMint = none → envMint = none →
      (resolveUserMint optsUser envUser optsMint envMint payerPk).2 =
        (resolveUserMint optsUser envUser optsMint envMint payerPk).1) ∧
    (optsUser = none → envUser = none → optsMint = none → envMint = none →
      resolveUserMint optsUser envUser optsMint envMint payerPk = (payerPk, payerPk)) := by
  refine ⟨?_, ?_, ?_⟩
  · intro h1 h2; subst h1; subst h2; rfl
  · intro h1 h2; subst h1; subst h2; rfl
  · intro h1 h2 h3 h4; subst h1; subst h2; subst h3; subst h4; rfl

theorem C9_user_mint_defaults_witness :
    (resolveUserMint none none none none [5]).1 = [5] ∧
    (resolveUserMint none none none none [5]).2 =
      (resolveUserMint none none none none [5]).1 ∧
    resolveUserMint none none none none [5] = ([5], [5]) :=
  ⟨(C9_user_mint_defaults none none none none [5]).1 rfl rfl,
   (C9_user_mint_defaults none none none none [5]).2.1 rfl rfl,
   (C9_user_mint_defaults none none none none [5]).2.2 rfl rfl rfl rfl⟩

/-- C10: the slab-state derivation uses as its second seed, after the
literal byte string slab, exactly the raw UTF-8 bytes of the market root —
illustrated by BTC-PERP encoding to its eight ASCII byte values with no
length prefix or padding — and any two market strings with identical UTF-8
byte sequences derive the identical slab-state result. -/
theorem C10_market_seed_raw_utf8 (h : Hasher) (r s u m : List Nat)
    (mkt m1 m2 : String) (t : Topology)
    (ht : deriveAllPDAs h r s u m mkt = Except.ok t)
    (henc : utf8Bytes m1 = utf8Bytes m2) :
    (∃ b, findProgramAddressSync h [utf8Bytes "slab", utf8Bytes mkt] s =
       Except.ok (t.slabStatePda, b)) ∧
    findProgramAddressSync h [utf8Bytes "slab", utf8Bytes m1] s =
      findProgramAddressSync h [utf8Bytes "slab", utf8Bytes m2] s ∧
    utf8Bytes "BTC-PERP" = [66, 84, 67, 45, 80, 69, 82, 80] :=
  ⟨(deriveAllPDAs_ok h r s u m mkt t ht).2.1, by rw [henc], by decide⟩

theorem C10_market_seed_raw_utf8_witness :
    (∃ b, findProgramAddressSync constHasher [utf8Bytes "slab", utf8Bytes "BTC-PERP"] [1] =
       Except.ok (constTopology.slabStatePda, b)) ∧
    findProgramAddressSync constHasher [utf8Bytes "slab", utf8Bytes "BTC-PERP"] [1] =
      findProgramAddressSync constHasher [utf8Bytes "slab", utf8Bytes "BTC-PERP"] [1] ∧
    utf8Bytes "BTC-PERP" = [66, 84, 67, 45, 80, 69, 82, 80] :=
  C10_market_seed_raw_utf8 constHasher [0] [1] [2] [3] "BTC-PERP" "BTC-PERP" "BTC-PERP"
    constTopology rfl rfl
